import Mathlib

/-!
Verification of the enrichment (processing) stage of the Reddit sentiment
pipeline.  The definitions below are a shallow embedding of
`lambda-functions/process/main.py`: pure derivation functions are translated
to Lean functions over `String`/`ℚ`, and the storage side effects of the
handler are modelled by explicit state passing over a `World` record with
per-key fault injection.  Python floats are modelled by exact rationals and
Python `str.split` / `re.findall` by explicit character-list scans.
-/

namespace RedditProc

/-- Boolean test that the first character list is a leading segment of the
second (used to build the substring test below). -/
def isPref : List Char → List Char → Bool
  | [], _ => true
  | _ :: _, [] => false
  | a :: as, b :: bs => a == b && isPref as bs

/-- Boolean test that `n` occurs as a contiguous run somewhere inside `h`;
this models the Python `word in text_lower` substring test. -/
def hasSub (n : List Char) : List Char → Bool
  | [] => n.isEmpty
  | b :: bs => isPref n (b :: bs) || hasSub n bs

/-- Accumulator-style scan behind `pyWords`: splits a character list into
maximal runs of non-whitespace characters, as Python `str.split()` with no
argument does (empty runs are discarded). -/
def pyWordsAux : List Char → List Char → List (List Char)
  | acc, [] => if acc.isEmpty then [] else [acc.reverse]
  | acc, c :: cs =>
    if c.isWhitespace then
      if acc.isEmpty then pyWordsAux [] cs else acc.reverse :: pyWordsAux [] cs
    else pyWordsAux (c :: acc) cs

/-- Whitespace-delimited words of a character list, Python `str.split()`. -/
def pyWords (cs : List Char) : List (List Char) := pyWordsAux [] cs

/-- Number of whitespace-delimited words of a string, `len(text.split())`. -/
def wordCount (s : String) : Nat := (pyWords s.data).length

/-- Membership test of a string in a list of strings, written with `decide`
so that proofs can unfold it uniformly. -/
def strIn (w : String) : List String → Bool
  | [] => false
  | x :: l => decide (x = w) || strIn w l

/-- Fixed positive-word list of `simple_sentiment_analysis` (main.py line 149). -/
def positive_words : List String :=
  ["good", "great", "awesome", "excellent", "amazing", "love", "fantastic", "wonderful"]

/-- Fixed negative-word list of `simple_sentiment_analysis` (main.py line 150). -/
def negative_words : List String :=
  ["bad", "terrible", "awful", "hate", "horrible", "disgusting", "worst", "stupid"]

/-- Count of the words of `ws` that occur as a substring of the (already
lower-cased) character list `lower`; models
`sum(1 for word in words if word in text_lower)`. -/
def countHits (ws : List String) (lower : List Char) : Nat :=
  (ws.filter (fun w => hasSub w.data lower)).length

/-- Translation of `simple_sentiment_analysis(text)` (main.py lines 144-163):
substring-count positive and negative hits on the lower-cased text, divide
their difference by `max(total_words, 1)` unless the word count is zero, and
clamp the result to the interval from -1 to 1. -/
def simple_sentiment_analysis (text : String) : ℚ :=
  let text_lower := text.data.map Char.toLower
  let positive_count := countHits positive_words text_lower
  let negative_count := countHits negative_words text_lower
  let total_words := (pyWords text.data).length
  if total_words = 0 then 0
  else
    let sentiment_score : ℚ :=
      ((positive_count : ℚ) - (negative_count : ℚ)) / ((max total_words 1 : ℕ) : ℚ)
    min (max sentiment_score (-1)) 1

/-- Category derivation inlined in `analyze_sentiment` (main.py lines 131-136). -/
def sentimentCategoryOf (s : ℚ) : String :=
  if s > 1 / 10 then "positive"
  else if s < -(1 / 10) then "negative"
  else "neutral"

/-- Result triple of `analyze_sentiment`. -/
structure SentimentData where
  sentiment_score : ℚ
  sentiment_category : String
  confidence : ℚ
deriving DecidableEq, Repr

/-- Raw post record as read back from the raw-data blob; only the fields the
processing stage consumes are modelled (the remaining raw fields ride along
unchanged through the dictionary merge and are irrelevant to every claim). -/
structure RawPost where
  post_id : String
  subreddit : String
  title : String
  selftext : String
  score : ℤ
  num_comments : ℤ
  url : String
  permalink : String
  timestamp : ℚ
deriving DecidableEq, Repr

/-- Translation of `analyze_sentiment(post_data)` (main.py lines 119-142):
the analysed text is the title and body joined by a single space. -/
def analyze_sentiment (p : RawPost) : SentimentData :=
  let text_to_analyze := p.title ++ " " ++ p.selftext
  let sentiment_score := simple_sentiment_analysis text_to_analyze
  { sentiment_score := sentiment_score
    sentiment_category := sentimentCategoryOf sentiment_score
    confidence := |sentiment_score| }

/-- Modelled from the words of the specification (section 4.2 step 2), for
comparison with `simple_sentiment_analysis`: positive and negative substring
match counts, each divided by the whitespace word count of the concatenation,
subtracted, and clamped to the interval from -1 to 1. -/
def specSentimentScore (title selftext : String) : ℚ :=
  let text := title ++ " " ++ selftext
  let lower := text.data.map Char.toLower
  let wc : ℚ := (wordCount text : ℚ)
  let raw : ℚ := (countHits positive_words lower : ℚ) / wc
              - (countHits negative_words lower : ℚ) / wc
  min (max raw (-1)) 1

/-- Character class of the regular expression `\w` restricted to ASCII:
letters, digits and the underscore. -/
def isWordChar (c : Char) : Bool := c.isAlphanum || c == '_'

/-- Accumulator-style scan splitting a character list into maximal runs of
word characters; models `re.findall(r"\b\w+\b", text)`. -/
def tokensAux : List Char → List Char → List (List Char)
  | acc, [] => if acc.isEmpty then [] else [acc.reverse]
  | acc, c :: cs =>
    if isWordChar c then tokensAux (c :: acc) cs
    else if acc.isEmpty then tokensAux [] cs
    else acc.reverse :: tokensAux [] cs

/-- Stop-word set of `extract_keywords` (main.py line 196). -/
def common_words : List String :=
  ["the", "a", "an", "and", "or", "but", "in", "on", "at", "to", "for", "of",
   "with", "by", "is", "are", "was", "were", "be", "been", "being", "have",
   "has", "had", "do", "does", "did", "will", "would", "could", "should",
   "this", "that", "these", "those"]

/-- Word-character tokens of the lower-cased text, as strings
(`re.findall(r"\b\w+\b", text.lower())`, main.py line 198). -/
def kwTokens (text : String) : List String :=
  (tokensAux [] (text.data.map Char.toLower)).map (fun l => String.mk l)

/-- Keyword survival test of main.py line 199: not a stop word and strictly
longer than three characters. -/
def keywordKeep (w : String) : Bool := !(strIn w common_words) && decide (3 < w.length)

/-- Tokens surviving the stop-word and length filter (main.py line 199). -/
def filtered_words (text : String) : List String := (kwTokens text).filter keywordKeep

/-- One step of the frequency dictionary: increment the count of `w` in
place if present, else append it with count 1 at the end — exactly the
insertion-ordered behaviour of the Python dict loop (main.py lines 202-204). -/
def bump (w : String) : List (String × Nat) → List (String × Nat)
  | [] => [(w, 1)]
  | (x, n) :: rest => if x = w then (x, n + 1) :: rest else (x, n) :: bump w rest

/-- Frequency dictionary built over a word list, first-encounter ordered. -/
def countFreqAux : List (String × Nat) → List String → List (String × Nat)
  | acc, [] => acc
  | acc, w :: ws => countFreqAux (bump w acc) ws

/-- Frequency dictionary of the filtered tokens (`word_freq`, main.py 202-204). -/
def word_freq (text : String) : List (String × Nat) := countFreqAux [] (filtered_words text)

/-- Stable descending insertion by count: the new pair goes in front of the
first existing pair whose count does not exceed it, hence in front of pairs
of equal count — matching the stability of Python sorted with reverse=True. -/
def insertDesc (x : String × Nat) : List (String × Nat) → List (String × Nat)
  | [] => [x]
  | y :: l => if y.2 ≤ x.2 then x :: y :: l else y :: insertDesc x l

/-- Stable sort of the frequency pairs by strictly descending count;
equal-count pairs keep their relative order.  This is the unique stable
descending sort, hence the translation of
`sorted(word_freq.items(), key=lambda x: x[1], reverse=True)` (main.py 207). -/
def sortDesc : List (String × Nat) → List (String × Nat)
  | [] => []
  | x :: l => insertDesc x (sortDesc l)

/-- Sorted frequency pairs (`sorted_words`, main.py line 207). -/
def sorted_words (text : String) : List (String × Nat) := sortDesc (word_freq text)

/-- Translation of `extract_keywords(text)` (main.py lines 191-208): the top
five keys of the sorted frequency dictionary. -/
def extract_keywords (text : String) : List String :=
  ((sorted_words text).take 5).map Prod.fst

/-- Subsequence of `ws` keeping only the first occurrence of each word
(`seen` carries the words already encountered); this makes the
first-encounter order used by the tie-break statements explicit. -/
def firstOccSeen : List String → List String → List String
  | _, [] => []
  | seen, w :: ws =>
    if strIn w seen then firstOccSeen seen ws
    else w :: firstOccSeen (seen ++ [w]) ws

/-- Translation of `calculate_engagement_ratio(post_data)` (main.py lines
179-189): zero whenever the score is not positive, else comments over score. -/
def calculate_engagement (p : RawPost) : ℚ :=
  if p.score ≤ 0 then 0 else (p.num_comments : ℚ) / (p.score : ℚ)

/-- Translation of `categorize_post_length(text)` (main.py lines 210-223). -/
def categorize_post_length (text : String) : String :=
  let wc := wordCount text
  if wc = 0 then "title_only"
  else if wc < 50 then "short"
  else if wc < 200 then "medium"
  else "long"

/-- Result dictionary of `extract_insights` (main.py lines 165-177).  The
field standing for the `engagement_ratio` key is called `engagement_rate`. -/
structure Insights where
  word_count : Nat
  has_url : Bool
  engagement_rate : ℚ
  topic_keywords : List String
  post_length_category : String
deriving DecidableEq, Repr

/-- Translation of `extract_insights(post_data)` (main.py lines 165-177):
word counts of title and body are computed separately and summed; `has_url`
is the Python truthiness of `url and url != permalink`. -/
def extract_insights (p : RawPost) : Insights :=
  { word_count := wordCount p.title + wordCount p.selftext
    has_url := decide (p.url ≠ "" ∧ p.url ≠ p.permalink)
    engagement_rate := calculate_engagement p
    topic_keywords := extract_keywords (p.title ++ " " ++ p.selftext)
    post_length_category := categorize_post_length p.selftext }

/-- Enriched record produced by `process_reddit_post` (main.py lines 90-96):
the raw record merged with the sentiment dictionary, the insights dictionary,
`processed_at` and the constant `processing_version`.  The merge has no key
collisions, so it is represented as the raw record plus the derived fields. -/
structure EnrichedPost where
  raw : RawPost
  sentiment_score : ℚ
  sentiment_category : String
  confidence : ℚ
  word_count : Nat
  has_url : Bool
  engagement_rate : ℚ
  topic_keywords : List String
  post_length_category : String
  processed_at : String
  processing_version : String
deriving DecidableEq, Repr

/-- Pure part of `process_reddit_post` (main.py lines 83-96): derive
sentiment and insights from the raw record and merge, stamping the given
clock reading as `processed_at`. -/
def buildEnriched (p : RawPost) (now : String) : EnrichedPost :=
  let s := analyze_sentiment p
  let i := extract_insights p
  { raw := p
    sentiment_score := s.sentiment_score
    sentiment_category := s.sentiment_category
    confidence := s.confidence
    word_count := i.word_count
    has_url := i.has_url
    engagement_rate := i.engagement_rate
    topic_keywords := i.topic_keywords
    post_length_category := i.post_length_category
    processed_at := now
    processing_version := "1.0" }

/-- DynamoDB attribute value, covering the types the update writes. -/
inductive AttrVal where
  | b : Bool → AttrVal
  | q : ℚ → AttrVal
  | n : Nat → AttrVal
  | s : String → AttrVal
deriving DecidableEq, Repr

/-- Structured row: a finite-support attribute map. -/
def Row : Type := String → Option AttrVal

/-- Attribute–value pairs of the `update_item` call (main.py lines 256-263):
the UpdateExpression together with its ExpressionAttributeValues. -/
def rowUpdatePairs (pd : EnrichedPost) : List (String × AttrVal) :=
  [("processed", AttrVal.b true),
   ("sentiment_score", AttrVal.q pd.sentiment_score),
   ("sentiment_category", AttrVal.s pd.sentiment_category),
   ("word_count", AttrVal.n pd.word_count),
   ("processed_at", AttrVal.s pd.processed_at)]

/-- First value bound to attribute name `a` in a pair list. -/
def lookupStr (a : String) : List (String × AttrVal) → Option AttrVal
  | [] => none
  | (k, v) :: rest => if k = a then some v else lookupStr a rest

/-- Effect of the `update_item` call on one row: SET exactly the attributes
of `rowUpdatePairs`, leave every other attribute as it was. -/
def applyRowUpdate (pd : EnrichedPost) (row : Row) : Row :=
  fun a =>
    match lookupStr a (rowUpdatePairs pd) with
    | some v => some v
    | none => row a

/-- Python `int()` truncation toward zero on a rational timestamp
(`int(processed_data["timestamp"])`, main.py line 254). -/
def pyInt (q : ℚ) : ℤ := if 0 ≤ q then q.floor else -((-q).floor)

/-- S3 object key of the processed blob (main.py line 229). -/
def processedKeyR (p : RawPost) : String :=
  "processed-data/" ++ p.subreddit ++ "/" ++ p.post_id ++ ".json"

/-- State of the two stores seen by one invocation, with per-key fault
injection standing for the `ClientError` paths: `readFails` makes the S3
read of that key raise, `putFails` the S3 put of that key, `updateFails`
the DynamoDB update of that post id. -/
structure World where
  rawBlobs : String → Option RawPost
  processedBlobs : String → Option EnrichedPost
  rows : String × ℤ → Row
  readFails : String → Bool
  putFails : String → Bool
  updateFails : String → Bool

/-- Translation of `get_post_from_s3(bucket, key)` (main.py lines 106-117):
returns the parsed blob, raising (as an `error`) on a client error or a
missing object.  The deployment uses a single bucket, so the store is keyed
by object key alone. -/
def get_post_from_s3 (w : World) (_bucket key : String) : Except Unit RawPost :=
  if w.readFails key then Except.error ()
  else
    match w.rawBlobs key with
    | some p => Except.ok p
    | none => Except.error ()

/-- Translation of `store_processed_data(processed_data)` (main.py lines
225-242): put the enriched blob under the processed-data key, raising on a
client error (in which case the store is unchanged). -/
def store_processed_data (w : World) (pd : EnrichedPost) : Except Unit World :=
  let key := processedKeyR pd.raw
  if w.putFails key then Except.error ()
  else Except.ok
    { w with processedBlobs := fun k => if k = key then some pd else w.processedBlobs k }

/-- Translation of `update_dynamodb_record(processed_data)` (main.py lines
244-269): partial-attribute update of the row keyed by the post id and the
integer-truncated timestamp, raising on a client error. -/
def update_dynamodb_record (w : World) (pd : EnrichedPost) : Except Unit World :=
  if w.updateFails pd.raw.post_id then Except.error ()
  else Except.ok
    { w with rows := fun k =>
        if k = (pd.raw.post_id, pyInt pd.raw.timestamp) then applyRowUpdate pd (w.rows k)
        else w.rows k }

/-- Translation of `process_reddit_post(bucket, key)` (main.py lines 76-104)
with the state threaded explicitly: read, derive, write the processed blob,
then update the row.  The returned Boolean is true when no step raised; on a
raise the partially-updated state reached so far is kept (a blob already
written stays written). -/
def process_reddit_post (w : World) (now : String) (bucket key : String) : World × Bool :=
  match get_post_from_s3 w bucket key with
  | Except.error _ => (w, false)
  | Except.ok post_data =>
    let processed_data := buildEnriched post_data now
    match store_processed_data w processed_data with
    | Except.error _ => (w, false)
    | Except.ok w1 =>
      match update_dynamodb_record w1 processed_data with
      | Except.error _ => (w1, false)
      | Except.ok w2 => (w2, true)

/-- One trigger notification of the batch, as the handler reads it:
`record["eventSource"]`, `record["eventName"]`,
`record["s3"]["bucket"]["name"]`, `record["s3"]["object"]["key"]`.  The
`eventName` field (the object-created / object-removed event type) is part
of every S3 notification but is never read by the handler. -/
structure S3Record where
  eventSource : String
  eventName : String
  bucket : String
  key : String
deriving DecidableEq, Repr

/-- Boolean test that `pre` is a leading segment of `s`, `str.startswith`. -/
def strStartsWith (pre s : String) : Bool := isPref pre.data s.data

/-- Filter the handler applies to one notification (main.py lines 38 and
45): the event source is S3 and the key lies under `raw-data/`. -/
def qualifies (r : S3Record) : Bool :=
  (r.eventSource == "aws:s3") && strStartsWith "raw-data/" r.key

/-- Body of the per-record loop of `lambda_handler` (main.py lines 37-53):
skip records failing the filter; process the rest, counting a record and
keeping its state changes only when processing did not raise (the `except`
arm logs and continues, leaving the count alone). -/
def handleRecord (now : String) (wn : World × Nat) (r : S3Record) : World × Nat :=
  if r.eventSource == "aws:s3" then
    if strStartsWith "raw-data/" r.key then
      match process_reddit_post wn.1 now r.bucket r.key with
      | (w1, true) => (w1, wn.2 + 1)
      | (w1, false) => (w1, wn.2)
    else wn
  else wn

/-- Success / failure envelope returned by the handler. -/
structure HandlerRes where
  statusCode : Nat
  message : String
  processed_count : Nat
deriving DecidableEq, Repr

/-- Translation of `lambda_handler(event, context)` (main.py lines 27-74):
fold the per-record step over the batch and wrap the count in the success
envelope.  The outer `except` arm (statusCode 500) only fires when iterating
the batch itself raises, which cannot happen on a well-typed record list, so
the model always returns the 200 envelope. -/
def lambda_handler (w : World) (now : String) (records : List S3Record) :
    World × HandlerRes :=
  let res := records.foldl (handleRecord now) (w, 0)
  (res.1,
   { statusCode := 200
     message := "Processing completed successfully"
     processed_count := res.2 })

/-! ## Concrete records and worlds used by scenario claims -/

/-- Raw record of the specification scenario behind claim C1. -/
def c1post : RawPost :=
  { post_id := "p1", subreddit := "s", title := "I love this", selftext := "",
    score := 10, num_comments := 2, url := "http://x", permalink := "http://x",
    timestamp := 5 }

/-- Small raw record used by the handler scenarios. -/
def samplePost : RawPost :=
  { post_id := "p1", subreddit := "lean", title := "Good stuff", selftext := "",
    score := 10, num_comments := 2, url := "http://a", permalink := "http://b",
    timestamp := 5 }

/-- World holding `samplePost` under its raw key, with no injected faults. -/
def wNoFault : World :=
  { rawBlobs := fun k => if k = "raw-data/lean/p1.json" then some samplePost else none
    processedBlobs := fun _ => none
    rows := fun _ => fun _ => none
    readFails := fun _ => false
    putFails := fun _ => false
    updateFails := fun _ => false }

/-- Notification for key `k` with the usual object-created event name. -/
def recOf (k : String) : S3Record :=
  { eventSource := "aws:s3", eventName := "ObjectCreated:Put", bucket := "b", key := k }

/-! ## Helper lemmas -/

/-- Unfolds `simple_sentiment_analysis` on the C1 scenario text. -/
theorem simple_sentiment_c1 :
    simple_sentiment_analysis ("I love this" ++ " " ++ "") = 1 / 3 := by
  have h1 : countHits positive_words
      (("I love this" ++ " " ++ "").data.map Char.toLower) = 1 := by decide
  have h2 : countHits negative_words
      (("I love this" ++ " " ++ "").data.map Char.toLower) = 0 := by decide
  have h3 : (pyWords ("I love this" ++ " " ++ "").data).length = 3 := by decide
  simp only [simple_sentiment_analysis, h1, h2, h3]
  norm_num [min_def, max_def]

/-! ## C1 -/

/-- Claim C1 (counterexample): on the scenario input
title="I love this", selftext="", the sentiment score is not 0.5 and the
whitespace word count of the analysed text is not 2 — the scenario text
splits into the three words I, love, this, so the score is 1/3. -/
theorem c1_score_not_half :
    (analyze_sentiment c1post).sentiment_score ≠ 1 / 2 ∧
    wordCount (c1post.title ++ " " ++ c1post.selftext) ≠ 2 := by
  constructor
  · show simple_sentiment_analysis ("I love this" ++ " " ++ "") ≠ 1 / 2
    rw [simple_sentiment_c1]
    norm_num
  · decide

/-- Claim C1 (amended): on the scenario input the enrichment derivation
yields sentiment_category = positive with sentiment_score = 1/3 (computed
over 3 words), has_url = false, engagement_ratio = 0.2 and
post_length_category = title_only. -/
theorem c1_scenario :
    (analyze_sentiment c1post).sentiment_score = 1 / 3 ∧
    (analyze_sentiment c1post).sentiment_category = "positive" ∧
    wordCount (c1post.title ++ " " ++ c1post.selftext) = 3 ∧
    (extract_insights c1post).has_url = false ∧
    (extract_insights c1post).engagement_rate = 1 / 5 ∧
    (extract_insights c1post).post_length_category = "title_only" := by
  refine ⟨simple_sentiment_c1, ?_, by decide, by decide, ?_, by decide⟩
  · show sentimentCategoryOf (simple_sentiment_analysis ("I love this" ++ " " ++ "")) =
      "positive"
    rw [simple_sentiment_c1]
    norm_num [sentimentCategoryOf]
  · show calculate_engagement c1post = 1 / 5
    norm_num [calculate_engagement, c1post]

/-! ## C3 -/

/-- Claim C3: for every title and body with at least one whitespace word in
the concatenation, the code sentiment score equals the specification
formula: positive substring-match count over word count, minus negative
substring-match count over word count, clamped to the interval from -1 to 1
(matching is substring-based on the lower-cased text, shared by both sides
through `countHits`, so e.g. awfully matches awful and scores -1 alone). -/
theorem c3_score_formula (title selftext : String)
    (h : 0 < wordCount (title ++ " " ++ selftext)) :
    simple_sentiment_analysis (title ++ " " ++ selftext) =
      specSentimentScore title selftext ∧
    simple_sentiment_analysis "awfully" = -1 := by
  constructor
  · have hne : (pyWords (title ++ " " ++ selftext).data).length ≠ 0 :=
      Nat.pos_iff_ne_zero.mp h
    have hmax : max (pyWords (title ++ " " ++ selftext).data).length 1 =
        (pyWords (title ++ " " ++ selftext).data).length :=
      Nat.max_eq_left (Nat.one_le_iff_ne_zero.mpr hne)
    simp only [simple_sentiment_analysis, specSentimentScore, wordCount, if_neg hne, hmax,
      div_sub_div_same]
  · have h1 : countHits positive_words ("awfully".data.map Char.toLower) = 0 := by decide
    have h2 : countHits negative_words ("awfully".data.map Char.toLower) = 1 := by decide
    have h3 : (pyWords "awfully".data).length = 1 := by decide
    simp only [simple_sentiment_analysis, h1, h2, h3]
    norm_num [min_def, max_def]

/-- Witness for C3 at title="Good day", selftext="bad". -/
theorem c3_score_formula_witness :
    simple_sentiment_analysis ("Good day" ++ " " ++ "bad") =
      specSentimentScore "Good day" "bad" ∧
    simple_sentiment_analysis "awfully" = -1 :=
  c3_score_formula "Good day" "bad" (by decide)

/-! ## C4 -/

/-- Claim C4: for every title and body, the sentiment score lies between -1
and 1, and it is exactly 0 whenever the whitespace word count of the
concatenation is 0. -/
theorem c4_score_bounds (title selftext : String) :
    -1 ≤ simple_sentiment_analysis (title ++ " " ++ selftext) ∧
    simple_sentiment_analysis (title ++ " " ++ selftext) ≤ 1 ∧
    (wordCount (title ++ " " ++ selftext) = 0 →
      simple_sentiment_analysis (title ++ " " ++ selftext) = 0) := by
  unfold simple_sentiment_analysis wordCount
  by_cases h : (pyWords (title ++ " " ++ selftext).data).length = 0
  · rw [if_pos h]
    norm_num
  · rw [if_neg h]
    refine ⟨le_min (le_max_right _ _) (by norm_num), min_le_right _ _, fun hc => absurd hc h⟩

/-- Witness for C4 at empty title and body (word count 0, score 0). -/
theorem c4_score_bounds_witness :
    -1 ≤ simple_sentiment_analysis ("" ++ " " ++ "") ∧
    simple_sentiment_analysis ("" ++ " " ++ "") ≤ 1 ∧
    simple_sentiment_analysis ("" ++ " " ++ "") = 0 :=
  ⟨(c4_score_bounds "" "").1, (c4_score_bounds "" "").2.1,
   (c4_score_bounds "" "").2.2 (by decide)⟩

/-! ## C5 -/

/-- Claim C5: the derived category is positive exactly above 1/10, negative
exactly below -1/10 and neutral in the closed band between them; the
boundaries are strict (1/10 is neutral, 1001/10000 is positive, and
symmetrically at the negative side), and the confidence equals the absolute
value of the score. -/
theorem c5_category_boundaries :
    (∀ s : ℚ, (sentimentCategoryOf s = "positive" ↔ 1 / 10 < s) ∧
      (sentimentCategoryOf s = "negative" ↔ s < -(1 / 10)) ∧
      (sentimentCategoryOf s = "neutral" ↔ -(1 / 10) ≤ s ∧ s ≤ 1 / 10)) ∧
    sentimentCategoryOf (1 / 10) = "neutral" ∧
    sentimentCategoryOf (1001 / 10000) = "positive" ∧
    sentimentCategoryOf (-(1 / 10)) = "neutral" ∧
    sentimentCategoryOf (-(1001 / 10000)) = "negative" ∧
    ∀ p : RawPost,
      (analyze_sentiment p).confidence = |(analyze_sentiment p).sentiment_score| := by
  have key : ∀ s : ℚ, (sentimentCategoryOf s = "positive" ↔ 1 / 10 < s) ∧
      (sentimentCategoryOf s = "negative" ↔ s < -(1 / 10)) ∧
      (sentimentCategoryOf s = "neutral" ↔ -(1 / 10) ≤ s ∧ s ≤ 1 / 10) := by
    intro s
    unfold sentimentCategoryOf
    split_ifs with h1 h2
    · exact ⟨⟨fun _ => h1, fun _ => rfl⟩,
        ⟨fun h => absurd h (by decide),
         fun h => absurd (lt_trans h1 h) (by norm_num)⟩,
        ⟨fun h => absurd h (by decide),
         fun h => absurd h1 (not_lt.mpr h.2)⟩⟩
    · exact ⟨⟨fun h => absurd h (by decide), fun h => absurd h h1⟩,
        ⟨fun _ => h2, fun _ => rfl⟩,
        ⟨fun h => absurd h (by decide),
         fun h => absurd h2 (not_lt.mpr h.1)⟩⟩
    · push_neg at h1 h2
      exact ⟨⟨fun h => absurd h (by decide), fun h => absurd h (not_lt.mpr h1)⟩,
        ⟨fun h => absurd h (by decide), fun h => absurd h (not_lt.mpr h2)⟩,
        ⟨fun _ => ⟨h2, h1⟩, fun _ => rfl⟩⟩
  refine ⟨key, ?_, ?_, ?_, ?_, fun p => rfl⟩
  · exact (key _).2.2.mpr (by norm_num)
  · exact (key _).1.mpr (by norm_num)
  · exact (key _).2.2.mpr (by norm_num)
  · exact (key _).2.1.mpr (by norm_num)

/-! ## Handler lemmas -/

/-- The merge keeps the raw record unchanged. -/
theorem buildEnriched_raw (p : RawPost) (now : String) : (buildEnriched p now).raw = p := rfl

/-- Success predicate of processing one key, read off the initial world:
the read must not fail, the raw blob must exist, and neither the processed
put nor the row update may fail. -/
def succeedsKey (w : World) (key : String) : Bool :=
  !w.readFails key &&
    match w.rawBlobs key with
    | none => false
    | some p => !w.putFails (processedKeyR p) && !w.updateFails p.post_id

/-- A notification is counted exactly when it passes the filter and its key
processes without a raised error. -/
def recordSucceeds (w : World) (r : S3Record) : Bool :=
  qualifies r && succeedsKey w r.key

/-- Processing one key never touches the raw blobs or the injected faults
(it only writes processed blobs and rows). -/
theorem process_immut (w : World) (now bucket key : String) :
    (process_reddit_post w now bucket key).1.rawBlobs = w.rawBlobs ∧
    (process_reddit_post w now bucket key).1.readFails = w.readFails ∧
    (process_reddit_post w now bucket key).1.putFails = w.putFails ∧
    (process_reddit_post w now bucket key).1.updateFails = w.updateFails := by
  by_cases hr : w.readFails key
  · simp [process_reddit_post, get_post_from_s3, hr]
  · cases hp : w.rawBlobs key with
    | none => simp [process_reddit_post, get_post_from_s3, hr, hp]
    | some p =>
      by_cases hput : w.putFails (processedKeyR p)
      · simp [process_reddit_post, get_post_from_s3, store_processed_data, hr, hp,
          buildEnriched_raw, hput]
      · by_cases hupd : w.updateFails p.post_id
        · simp [process_reddit_post, get_post_from_s3, store_processed_data,
            update_dynamodb_record, hr, hp, buildEnriched_raw, hput, hupd]
        · simp [process_reddit_post, get_post_from_s3, store_processed_data,
            update_dynamodb_record, hr, hp, buildEnriched_raw, hput, hupd]

/-- The Boolean returned by processing one key is `succeedsKey` of the
initial world. -/
theorem process_snd (w : World) (now bucket key : String) :
    (process_reddit_post w now bucket key).2 = succeedsKey w key := by
  by_cases hr : w.readFails key
  · simp [process_reddit_post, get_post_from_s3, succeedsKey, hr]
  · cases hp : w.rawBlobs key with
    | none => simp [process_reddit_post, get_post_from_s3, succeedsKey, hr, hp]
    | some p =>
      by_cases hput : w.putFails (processedKeyR p)
      · simp [process_reddit_post, get_post_from_s3, store_processed_data, succeedsKey,
          hr, hp, buildEnriched_raw, hput]
      · by_cases hupd : w.updateFails p.post_id
        · simp [process_reddit_post, get_post_from_s3, store_processed_data,
            update_dynamodb_record, succeedsKey, hr, hp, buildEnriched_raw, hput, hupd]
        · simp [process_reddit_post, get_post_from_s3, store_processed_data,
            update_dynamodb_record, succeedsKey, hr, hp, buildEnriched_raw, hput, hupd]

/-- Worlds agreeing on raw blobs and faults agree on `recordSucceeds`. -/
theorem recordSucceeds_congr (w w' : World)
    (h1 : w'.rawBlobs = w.rawBlobs) (h2 : w'.readFails = w.readFails)
    (h3 : w'.putFails = w.putFails) (h4 : w'.updateFails = w.updateFails) :
    ∀ r, recordSucceeds w' r = recordSucceeds w r := by
  intro r
  unfold recordSucceeds succeedsKey
  rw [h1, h2, h3, h4]

/-- Core induction over the batch: the fold counts exactly the notifications
satisfying `recordSucceeds` of the initial world, and the raw blobs and
fault functions are carried through unchanged. -/
theorem foldl_handle (now : String) (records : List S3Record) :
    ∀ (w : World) (n : ℕ),
    (records.foldl (handleRecord now) (w, n)).2 =
      n + records.countP (fun r => recordSucceeds w r) ∧
    (records.foldl (handleRecord now) (w, n)).1.rawBlobs = w.rawBlobs ∧
    (records.foldl (handleRecord now) (w, n)).1.readFails = w.readFails ∧
    (records.foldl (handleRecord now) (w, n)).1.putFails = w.putFails ∧
    (records.foldl (handleRecord now) (w, n)).1.updateFails = w.updateFails := by
  induction records with
  | nil => intro w n; simp
  | cons r rs ih =>
    intro w n
    rw [List.foldl_cons, List.countP_cons]
    by_cases h1 : (r.eventSource == "aws:s3") = true
    · by_cases h2 : strStartsWith "raw-data/" r.key = true
      · have hq : qualifies r = true := by simp [qualifies, h1, h2]
        rcases hpr : process_reddit_post w now r.bucket r.key with ⟨w', ok⟩
        have hok : ok = succeedsKey w r.key := by
          have := process_snd w now r.bucket r.key
          rw [hpr] at this
          exact this
        have himm := process_immut w now r.bucket r.key
        rw [hpr] at himm
        have hrs : recordSucceeds w r = succeedsKey w r.key := by
          simp [recordSucceeds, hq]
        have hstep : handleRecord now (w, n) r =
            (w', n + if recordSucceeds w r then 1 else 0) := by
          unfold handleRecord
          rw [if_pos h1, if_pos h2, hpr, hrs, ← hok]
          cases ok <;> simp
        rw [hstep]
        have ihw := ih w' (n + if recordSucceeds w r then 1 else 0)
        have hcongr : (fun x => recordSucceeds w' x) = fun x => recordSucceeds w x :=
          funext (recordSucceeds_congr w w' himm.1 himm.2.1 himm.2.2.1 himm.2.2.2)
        rw [hcongr] at ihw
        refine ⟨?_, himm.1 ▸ ihw.2.1, himm.2.1 ▸ ihw.2.2.1,
          himm.2.2.1 ▸ ihw.2.2.2.1, himm.2.2.2 ▸ ihw.2.2.2.2⟩
        rw [ihw.1]
        cases hc : recordSucceeds w r <;> first
        | (simp; omega)
        | simp
      · have hstep : handleRecord now (w, n) r = (w, n) := by
          unfold handleRecord
          rw [if_pos h1, if_neg h2]
        have hrs : recordSucceeds w r = false := by
          simp only [Bool.not_eq_true] at h2
          simp [recordSucceeds, qualifies, h2]
        rw [hstep, hrs]
        have := ih w n
        simpa using this
    · have hstep : handleRecord now (w, n) r = (w, n) := by
        unfold handleRecord
        rw [if_neg h1]
      have hrs : recordSucceeds w r = false := by
        simp only [Bool.not_eq_true] at h1
        simp [recordSucceeds, qualifies, h1]
      rw [hstep, hrs]
      have := ih w n
      simpa using this

/-! ## C2 -/

/-- Claim C2 (counterexample): a notification whose event name is
ObjectRemoved:Delete — not an object-created event — with a key under
raw-data/ is still acted on (processed count 1, where the claim requires it
to be skipped): the handler checks only the event source and the key
prefix, never the event name. -/
theorem c2_event_name_ignored :
    (lambda_handler wNoFault "T"
      [{ eventSource := "aws:s3", eventName := "ObjectRemoved:Delete",
         bucket := "b", key := "raw-data/lean/p1.json" }]).2.processed_count = 1 := by
  decide

/-- Claim C2 (amended): the handler acts only on notifications whose event
source is aws:s3 and whose key lies under raw-data/ — regardless of the
event name — leaving state and count untouched for every other
notification; a batch containing only a processed-data notification returns
the success envelope with processed count 0. -/
theorem c2_filter :
    (∀ (now : String) (w : World) (n : ℕ) (r : S3Record),
      qualifies r = false → handleRecord now (w, n) r = (w, n)) ∧
    (∀ (w : World) (now : String),
      (lambda_handler w now [recOf "processed-data/lean/p1.json"]).2.statusCode = 200 ∧
      (lambda_handler w now [recOf "processed-data/lean/p1.json"]).2.processed_count = 0) := by
  constructor
  · intro now w n r hf
    unfold handleRecord
    by_cases h1 : (r.eventSource == "aws:s3") = true
    · have h2 : ¬ strStartsWith "raw-data/" r.key = true := by
        intro h2
        simp [qualifies, h1, h2] at hf
      rw [if_pos h1, if_neg h2]
    · rw [if_neg h1]
  · intro w now
    have h2 : strStartsWith "raw-data/" "processed-data/lean/p1.json" = false := by decide
    constructor
    · rfl
    · show (List.foldl (handleRecord now) (w, 0) [recOf "processed-data/lean/p1.json"]).2 = 0
      simp [handleRecord, recOf, h2]

/-- Witness for C2 (amended), instantiated at the processed-data
notification and the fault-free world. -/
theorem c2_filter_witness :
    handleRecord "T" (wNoFault, 0) (recOf "processed-data/lean/p1.json") = (wNoFault, 0) :=
  c2_filter.1 "T" wNoFault 0 (recOf "processed-data/lean/p1.json") (by decide)

/-! ## C6 -/

/-- Raw record p2 for the three-notification scenario. -/
def post2 : RawPost := { samplePost with post_id := "p2" }

/-- Raw record p3 for the three-notification scenario. -/
def post3 : RawPost := { samplePost with post_id := "p3" }

/-- World for the C6 scenario: three raw blobs, with the read of the third
key failing (injected storage read failure). -/
def wC6 : World :=
  { rawBlobs := fun k =>
      if k = "raw-data/lean/p1.json" then some samplePost
      else if k = "raw-data/lean/p2.json" then some post2
      else if k = "raw-data/lean/p3.json" then some post3
      else none
    processedBlobs := fun _ => none
    rows := fun _ => fun _ => none
    readFails := fun k => decide (k = "raw-data/lean/p3.json")
    putFails := fun _ => false
    updateFails := fun _ => false }

/-- Claim C6: for every batch, a raised error while processing one
qualifying notification is caught and only skips that notification — the
envelope is always a success (statusCode 200) and the count is exactly the
number of notifications that pass the filter and complete without error
(`recordSucceeds` of the initial world); in particular a storage read
failure on one of three qualifying notifications yields count 2 with a
success envelope. -/
theorem c6_error_isolation :
    (∀ (w : World) (now : String) (records : List S3Record),
      (lambda_handler w now records).2.statusCode = 200 ∧
      (lambda_handler w now records).2.processed_count =
        records.countP (fun r => recordSucceeds w r)) ∧
    (lambda_handler wC6 "T"
      [recOf "raw-data/lean/p1.json", recOf "raw-data/lean/p2.json",
       recOf "raw-data/lean/p3.json"]).2.processed_count = 2 ∧
    (lambda_handler wC6 "T"
      [recOf "raw-data/lean/p1.json", recOf "raw-data/lean/p2.json",
       recOf "raw-data/lean/p3.json"]).2.statusCode = 200 := by
  refine ⟨fun w now records => ⟨rfl, ?_⟩, by decide, rfl⟩
  show (records.foldl (handleRecord now) (w, 0)).2 = _
  have := (foldl_handle now records w 0).1
  simpa using this

/-! ## C7 -/

/-- Empty structured row. -/
def emptyRow : Row := fun _ => none

/-- Enriched record of `samplePost` at a fixed clock reading. -/
def pdSample : EnrichedPost := buildEnriched samplePost "T"

/-- Claim C7: the row mutation sets exactly processed (to true),
sentiment_score, sentiment_category, word_count and processed_at; every
attribute outside that set — in particular confidence, has_url,
engagement_ratio, topic_keywords and post_length_category — is left exactly
as it was. -/
theorem c7_row_update_frame (pd : EnrichedPost) (row : Row) :
    applyRowUpdate pd row "processed" = some (AttrVal.b true) ∧
    applyRowUpdate pd row "sentiment_score" = some (AttrVal.q pd.sentiment_score) ∧
    applyRowUpdate pd row "sentiment_category" = some (AttrVal.s pd.sentiment_category) ∧
    applyRowUpdate pd row "word_count" = some (AttrVal.n pd.word_count) ∧
    applyRowUpdate pd row "processed_at" = some (AttrVal.s pd.processed_at) ∧
    (∀ a : String, ¬ a ∈ ["processed", "sentiment_score", "sentiment_category",
        "word_count", "processed_at"] → applyRowUpdate pd row a = row a) ∧
    applyRowUpdate pd row "confidence" = row "confidence" ∧
    applyRowUpdate pd row "has_url" = row "has_url" ∧
    applyRowUpdate pd row "engagement_ratio" = row "engagement_ratio" ∧
    applyRowUpdate pd row "topic_keywords" = row "topic_keywords" ∧
    applyRowUpdate pd row "post_length_category" = row "post_length_category" := by
  have frame : ∀ a : String, ¬ a ∈ ["processed", "sentiment_score", "sentiment_category",
      "word_count", "processed_at"] → applyRowUpdate pd row a = row a := by
    intro a ha
    simp only [List.mem_cons, List.not_mem_nil, or_false, not_or] at ha
    obtain ⟨h1, h2, h3, h4, h5⟩ := ha
    simp [applyRowUpdate, lookupStr, rowUpdatePairs,
      Ne.symm h1, Ne.symm h2, Ne.symm h3, Ne.symm h4, Ne.symm h5]
  refine ⟨rfl, rfl, rfl, rfl, rfl, frame, ?_, ?_, ?_, ?_, ?_⟩ <;>
    exact frame _ (by decide)

/-- Witness for C7: the frame part applied to a concrete enriched record,
empty row and the attribute name confidence. -/
theorem c7_row_update_frame_witness :
    applyRowUpdate pdSample emptyRow "confidence" = emptyRow "confidence" :=
  (c7_row_update_frame pdSample emptyRow).2.2.2.2.2.1 "confidence" (by decide)

/-! ## C9 -/

/-- Claim C9 (counterexample): reprocessing at a later clock reading does
not re-issue the same row update — the update carries `processed_at`, whose
bound value is the new clock reading, so the two attribute–value sets
differ. -/
theorem c9_update_differs :
    rowUpdatePairs (buildEnriched samplePost "2024-01-01T00:00:00Z") ≠
      rowUpdatePairs (buildEnriched samplePost "2024-01-01T00:05:00Z") := by
  intro h
  have hlk := congrArg (lookupStr "processed_at") h
  have h1 : lookupStr "processed_at"
      (rowUpdatePairs (buildEnriched samplePost "2024-01-01T00:00:00Z")) =
      some (AttrVal.s "2024-01-01T00:00:00Z") := rfl
  have h2 : lookupStr "processed_at"
      (rowUpdatePairs (buildEnriched samplePost "2024-01-01T00:05:00Z")) =
      some (AttrVal.s "2024-01-01T00:05:00Z") := rfl
  rw [h1, h2] at hlk
  simp only [Option.some.injEq, AttrVal.s.injEq] at hlk
  exact absurd hlk (by decide)

/-- Claim C9 (amended): the derivation is a pure function of the raw
record — two runs at different clock readings agree on the raw fields and
on every analytical field (sentiment_score, sentiment_category, confidence,
word_count, has_url, engagement_ratio, topic_keywords,
post_length_category, processing_version), the enriched records differing
at most in `processed_at`; and the re-issued row update binds the same
value to every attribute except `processed_at`. -/
theorem c9_pure_rederivation (p : RawPost) (t1 t2 : String) :
    (buildEnriched p t1).raw = (buildEnriched p t2).raw ∧
    (buildEnriched p t1).sentiment_score = (buildEnriched p t2).sentiment_score ∧
    (buildEnriched p t1).sentiment_category = (buildEnriched p t2).sentiment_category ∧
    (buildEnriched p t1).confidence = (buildEnriched p t2).confidence ∧
    (buildEnriched p t1).word_count = (buildEnriched p t2).word_count ∧
    (buildEnriched p t1).has_url = (buildEnriched p t2).has_url ∧
    (buildEnriched p t1).engagement_rate = (buildEnriched p t2).engagement_rate ∧
    (buildEnriched p t1).topic_keywords = (buildEnriched p t2).topic_keywords ∧
    (buildEnriched p t1).post_length_category =
      (buildEnriched p t2).post_length_category ∧
    (buildEnriched p t1).processing_version = (buildEnriched p t2).processing_version ∧
    ∀ a : String, a ≠ "processed_at" →
      lookupStr a (rowUpdatePairs (buildEnriched p t1)) =
        lookupStr a (rowUpdatePairs (buildEnriched p t2)) := by
  refine ⟨rfl, rfl, rfl, rfl, rfl, rfl, rfl, rfl, rfl, rfl, ?_⟩
  intro a ha
  simp only [rowUpdatePairs, lookupStr]
  split_ifs with h1 h2 h3 h4 h5
  · rfl
  · rfl
  · rfl
  · rfl
  · exact absurd h5.symm ha
  · rfl

/-- Witness for C9 (amended) at `samplePost` and the attribute
sentiment_score. -/
theorem c9_pure_rederivation_witness :
    lookupStr "sentiment_score" (rowUpdatePairs (buildEnriched samplePost "A")) =
      lookupStr "sentiment_score" (rowUpdatePairs (buildEnriched samplePost "B")) :=
  (c9_pure_rederivation samplePost "A" "B").2.2.2.2.2.2.2.2.2.2 "sentiment_score"
    (by decide)

/-! ## C10 -/

/-- Notification built from all four fields. -/
def mkRec (src en bucket key : String) : S3Record :=
  { eventSource := src, eventName := en, bucket := bucket, key := key }

/-- Claim C10: when the raw blob exists and is readable and the processed
put succeeds but the row update fails, processing reports failure, the
enriched blob is already in the processed-data namespace and stays there
(no rollback), the rows — in particular the processed flag — are untouched,
and the handler counts the notification as failed (count 0 on a
single-notification batch). -/
theorem c10_no_rollback (w : World) (now bucket key : String) (p : RawPost)
    (h1 : w.rawBlobs key = some p) (h2 : w.readFails key = false)
    (h3 : w.putFails (processedKeyR p) = false)
    (h4 : w.updateFails p.post_id = true) :
    (process_reddit_post w now bucket key).2 = false ∧
    (process_reddit_post w now bucket key).1.processedBlobs (processedKeyR p) =
      some (buildEnriched p now) ∧
    (process_reddit_post w now bucket key).1.rows = w.rows ∧
    (lambda_handler w now
      [mkRec "aws:s3" "ObjectCreated:Put" bucket key]).2.processed_count = 0 := by
  have hproc : process_reddit_post w now bucket key =
      ({ w with processedBlobs := fun k =>
          if k = processedKeyR p then some (buildEnriched p now)
          else w.processedBlobs k }, false) := by
    simp [process_reddit_post, get_post_from_s3, store_processed_data,
      update_dynamodb_record, h1, h2, h3, h4, buildEnriched_raw]
  refine ⟨by rw [hproc], by rw [hproc]; simp, by rw [hproc], ?_⟩
  show (List.foldl (handleRecord now) (w, 0)
    [mkRec "aws:s3" "ObjectCreated:Put" bucket key]).2 = 0
  by_cases hsw : strStartsWith "raw-data/" key = true
  · simp [handleRecord, mkRec, hsw, hproc]
  · simp [handleRecord, mkRec, hsw]

/-- World with `samplePost` stored and a row-update fault on its post id. -/
def wUpd : World := { wNoFault with updateFails := fun pid => decide (pid = "p1") }

/-- Witness for C10 at the concrete world `wUpd`. -/
theorem c10_no_rollback_witness :
    (process_reddit_post wUpd "T" "b" "raw-data/lean/p1.json").2 = false ∧
    (process_reddit_post wUpd "T" "b" "raw-data/lean/p1.json").1.processedBlobs
      (processedKeyR samplePost) = some (buildEnriched samplePost "T") ∧
    (process_reddit_post wUpd "T" "b" "raw-data/lean/p1.json").1.rows = wUpd.rows ∧
    (lambda_handler wUpd "T"
      [mkRec "aws:s3" "ObjectCreated:Put" "b"
        "raw-data/lean/p1.json"]).2.processed_count = 0 :=
  c10_no_rollback wUpd "T" "b" "raw-data/lean/p1.json" samplePost
    (by decide) (by decide) (by decide) (by decide)

/-! ## C8 lemmas -/

/-- Membership in `strIn` is list membership. -/
theorem strIn_iff (w : String) (l : List String) : strIn w l = true ↔ w ∈ l := by
  induction l with
  | nil => simp [strIn]
  | cons x l ih =>
    simp only [strIn, Bool.or_eq_true, decide_eq_true_eq, List.mem_cons, ih]
    constructor
    · rintro (rfl | h)
      · exact Or.inl rfl
      · exact Or.inr h
    · rintro (rfl | h)
      · exact Or.inl rfl
      · exact Or.inr h

/-- Membership through a descending insertion. -/
theorem mem_insertDesc (x y : String × Nat) (l : List (String × Nat)) :
    y ∈ insertDesc x l ↔ y = x ∨ y ∈ l := by
  induction l with
  | nil => simp [insertDesc]
  | cons z l ih =>
    unfold insertDesc
    by_cases hc : z.2 ≤ x.2
    · rw [if_pos hc]
      exact List.mem_cons
    · rw [if_neg hc]
      rw [List.mem_cons, List.mem_cons, ih]
      tauto

/-- Membership through the stable sort. -/
theorem mem_sortDesc (y : String × Nat) (l : List (String × Nat)) :
    y ∈ sortDesc l ↔ y ∈ l := by
  induction l with
  | nil => simp [sortDesc]
  | cons x l ih => simp [sortDesc, mem_insertDesc, ih, List.mem_cons]

/-- Descending insertion preserves the non-increasing-count ordering. -/
theorem pairwise_insertDesc (x : String × Nat) (l : List (String × Nat))
    (h : List.Pairwise (fun a b : String × Nat => b.2 ≤ a.2) l) :
    List.Pairwise (fun a b : String × Nat => b.2 ≤ a.2) (insertDesc x l) := by
  induction l with
  | nil => simp [insertDesc]
  | cons z l ih =>
    rw [List.pairwise_cons] at h
    unfold insertDesc
    by_cases hc : z.2 ≤ x.2
    · rw [if_pos hc]
      refine List.Pairwise.cons ?_ (List.pairwise_cons.mpr h)
      intro b hb
      rcases List.mem_cons.mp hb with rfl | hbl
      · exact hc
      · exact le_trans (h.1 b hbl) hc
    · rw [if_neg hc]
      refine List.Pairwise.cons ?_ (ih h.2)
      intro b hb
      rcases (mem_insertDesc x b l).mp hb with rfl | hbl
      · exact le_of_lt (not_le.mp hc)
      · exact h.1 b hbl

/-- The stable sort output is non-increasing in the counts. -/
theorem pairwise_sortDesc (l : List (String × Nat)) :
    List.Pairwise (fun a b : String × Nat => b.2 ≤ a.2) (sortDesc l) := by
  induction l with
  | nil => simp [sortDesc]
  | cons x l ih => exact pairwise_insertDesc x (sortDesc l) ih

/-- Filtering one count class through a descending insertion: the inserted
pair lands in front of its class (every pair it passes over has a strictly
larger count), so insertion is stable. -/
theorem insertDesc_filter (x : String × Nat) (l : List (String × Nat)) (c : Nat) :
    (insertDesc x l).filter (fun p => decide (p.2 = c)) =
      if x.2 = c then x :: l.filter (fun p => decide (p.2 = c))
      else l.filter (fun p => decide (p.2 = c)) := by
  induction l with
  | nil =>
    by_cases hx : x.2 = c <;> simp [insertDesc, hx]
  | cons z l ih =>
    unfold insertDesc
    by_cases hc : z.2 ≤ x.2
    · rw [if_pos hc]
      by_cases hx : x.2 = c <;> simp [List.filter_cons, hx]
    · rw [if_neg hc]
      have hlt : x.2 < z.2 := not_le.mp hc
      by_cases hx : x.2 = c
      · have hz : ¬ z.2 = c := by omega
        simp [List.filter_cons, hx, hz, ih]
      · by_cases hz : z.2 = c <;> simp [List.filter_cons, hx, hz, ih]

/-- Stability of the sort: each count class of the output is the count class
of the input, in the same order. -/
theorem sortDesc_filter (l : List (String × Nat)) (c : Nat) :
    (sortDesc l).filter (fun p => decide (p.2 = c)) =
      l.filter (fun p => decide (p.2 = c)) := by
  induction l with
  | nil => rfl
  | cons x l ih =>
    show (insertDesc x (sortDesc l)).filter _ = _
    rw [insertDesc_filter]
    by_cases hx : x.2 = c <;> simp [List.filter_cons, hx, ih]

/-- Keys of one bump step: an existing key keeps the key list unchanged, a
new key is appended at the end. -/
theorem bump_keys (w : String) (acc : List (String × Nat)) :
    (bump w acc).map Prod.fst =
      if strIn w (acc.map Prod.fst) then acc.map Prod.fst
      else acc.map Prod.fst ++ [w] := by
  induction acc with
  | nil => simp [bump, strIn]
  | cons x rest ih =>
    rcases x with ⟨xk, xn⟩
    unfold bump
    by_cases hx : xk = w
    · rw [if_pos hx]
      simp [strIn, hx]
    · rw [if_neg hx]
      simp only [List.map_cons, strIn, Bool.or_eq_true, decide_eq_true_eq]
      by_cases hs : strIn w (rest.map Prod.fst) = true
      · simp [hx, hs, ih]
      · simp only [Bool.not_eq_true] at hs
        simp [hx, hs, ih]

/-- Equation of `firstOccSeen` on a cons cell. -/
theorem firstOccSeen_cons (seen : List String) (w : String) (ws : List String) :
    firstOccSeen seen (w :: ws) =
      if strIn w seen then firstOccSeen seen ws
      else w :: firstOccSeen (seen ++ [w]) ws := rfl

/-- Keys of the frequency dictionary: the keys already in the accumulator
followed by the first occurrences of the remaining words. -/
theorem countFreqAux_keys (ws : List String) :
    ∀ acc : List (String × Nat),
    (countFreqAux acc ws).map Prod.fst =
      acc.map Prod.fst ++ firstOccSeen (acc.map Prod.fst) ws := by
  induction ws with
  | nil => intro acc; simp [countFreqAux, firstOccSeen]
  | cons w ws ih =>
    intro acc
    show (countFreqAux (bump w acc) ws).map Prod.fst = _
    rw [ih (bump w acc), bump_keys, firstOccSeen_cons]
    by_cases hs : strIn w (acc.map Prod.fst) = true
    · simp only [hs, if_true]
    · simp only [Bool.not_eq_true] at hs
      simp [hs, List.append_assoc]

/-- Every word listed among the first occurrences occurs in the word list. -/
theorem firstOccSeen_subset (ws : List String) :
    ∀ (seen : List String) (y : String), y ∈ firstOccSeen seen ws → y ∈ ws := by
  induction ws with
  | nil => intro seen y h; simp [firstOccSeen] at h
  | cons w ws ih =>
    intro seen y h
    unfold firstOccSeen at h
    by_cases hs : strIn w seen = true
    · rw [if_pos hs] at h
      exact List.mem_cons_of_mem w (ih seen y h)
    · rw [if_neg hs] at h
      rcases List.mem_cons.mp h with rfl | h2
      · exact List.mem_cons_self y ws
      · exact List.mem_cons_of_mem w (ih (seen ++ [w]) y h2)

/-! ## C8 -/

/-- Claim C8: for every text, topic_keywords has length at most 5 and
contains no stop word and no token of length at most 3; the sorted
frequency list behind it is non-increasing in the counts (descending
frequency), and each count class of the sorted list equals the
corresponding class of the frequency dictionary in order (stable
tie-break), whose key order is exactly the first-encounter order of the
surviving tokens. -/
theorem c8_keywords (text : String) :
    (extract_keywords text).length ≤ 5 ∧
    (∀ w, w ∈ extract_keywords text → ¬ w ∈ common_words ∧ 3 < w.length) ∧
    List.Pairwise (fun a b : String × Nat => b.2 ≤ a.2) (sorted_words text) ∧
    (∀ c : Nat, (sorted_words text).filter (fun p => decide (p.2 = c)) =
      (word_freq text).filter (fun p => decide (p.2 = c))) ∧
    (word_freq text).map Prod.fst = firstOccSeen [] (filtered_words text) := by
  have hkeys : (word_freq text).map Prod.fst = firstOccSeen [] (filtered_words text) := by
    have := countFreqAux_keys (filtered_words text) []
    simpa [word_freq] using this
  refine ⟨?_, ?_, pairwise_sortDesc _, fun c => sortDesc_filter (word_freq text) c, hkeys⟩
  · simp only [extract_keywords, List.length_map, List.length_take]
    exact Nat.min_le_left 5 _
  · intro w hw
    obtain ⟨p, hp, rfl⟩ := List.mem_map.mp hw
    have hp1 : p ∈ sorted_words text := List.take_subset 5 _ hp
    have hp2 : p ∈ word_freq text := (mem_sortDesc p _).mp hp1
    have hp3 : p.1 ∈ (word_freq text).map Prod.fst := List.mem_map_of_mem Prod.fst hp2
    rw [hkeys] at hp3
    have hp4 : p.1 ∈ filtered_words text := firstOccSeen_subset _ [] p.1 hp3
    have hp5 := (List.mem_filter.mp hp4).2
    simp only [keywordKeep, Bool.and_eq_true, Bool.not_eq_true', decide_eq_true_eq] at hp5
    constructor
    · intro hmem
      have hin := (strIn_iff p.1 common_words).mpr hmem
      rw [hp5.1] at hin
      exact Bool.false_ne_true hin
    · exact hp5.2

/-- Witness for C8 at the text alpha beta alpha delta (keywords alpha,
beta, delta; beta survives the filter; count class 1 is beta, delta in
first-encounter order). -/
theorem c8_keywords_witness :
    (extract_keywords "alpha beta alpha delta").length ≤ 5 ∧
    (¬ "beta" ∈ common_words ∧ 3 < "beta".length) ∧
    (sorted_words "alpha beta alpha delta").filter (fun p => decide (p.2 = 1)) =
      (word_freq "alpha beta alpha delta").filter (fun p => decide (p.2 = 1)) :=
  ⟨(c8_keywords "alpha beta alpha delta").1,
   (c8_keywords "alpha beta alpha delta").2.1 "beta" (by decide),
   (c8_keywords "alpha beta alpha delta").2.2.2.1 1⟩

end RedditProc
